import Mathlib

/-!
Verification development for `src/expr/feature.py` (FaceReader).

The Python file composes image feature extractors: skimage- and cv2-backed
Gabor filter banks, spatial LBP histogram variants, a chain operator and a
Gabor+Fisherfaces pipeline.  Images, kernels and response maps are embedded as
lists of lists of real numbers (idealising numpy float arrays); external
library primitives that generate kernels or convolve are kept as explicit
function parameters, and external repository modules that are not part of the
source file (facerec's ChainOperator, SpatialHistogram, Fisherfaces and the
zscore utility) are modelled from the specification, as marked on each
definition.  IEEE non-finite results (NaN/inf from division by a zero standard
deviation) are represented by `Option ℝ` with `none` standing for a non-finite
entry.
-/

namespace FaceReader

noncomputable section

/-- A 2D numeric array (image, kernel or response map): a list of rows. -/
abbrev Mat := List (List ℝ)

/-- Entry access with 0 as the out-of-range default (all accesses made by the
embedded code are in range, the default only keeps the function total). -/
def Mat.get (m : Mat) (i j : Nat) : ℝ :=
  (List.getD m i []).getD j 0

/-- Number of rows. -/
def Mat.numRows (m : Mat) : Nat := m.length

/-- Number of columns (of the first row; all embedded arrays are rectangular). -/
def Mat.numCols (m : Mat) : Nat := (m.headD []).length

/-- All entries of the array, flattened row-major (numpy `.flatten()` order). -/
def Mat.entries (m : Mat) : List ℝ := m.flatten

/-- `numpy` mean of a 1D vector: sum divided by length (`0/0 = 0` for the
empty vector, which the embedded code never hits). -/
def mean (v : List ℝ) : ℝ := v.sum / v.length

/-- `numpy` population variance (`ddof=0`): mean squared deviation. -/
def variance (v : List ℝ) : ℝ := mean (v.map (fun t => (t - mean v) ^ 2))

/-- `numpy` standard deviation: square root of the population variance. -/
def std (v : List ℝ) : ℝ := Real.sqrt (variance v)

/-- Mean over all entries of a 2D array (`filtered.mean()`). -/
def Mat.meanAll (m : Mat) : ℝ := mean m.entries

/-- Variance over all entries of a 2D array (`filtered.var()`). -/
def Mat.varAll (m : Mat) : ℝ := variance m.entries

/-- IEEE-style division: a zero divisor yields a non-finite result (NaN or
±inf), represented as `none`. -/
def ndivOpt (a b : ℝ) : Option ℝ := if b = 0 then none else some (a / b)

/-- Modelled from the spec: the z-score normalization utility
(`facerec.normalization.zscore`, not part of the source file) maps a vector to
`(v - mean v) / std v`.  Division by a zero standard deviation produces
non-finite entries, recorded as `none`. -/
def zscore (v : List ℝ) : List (Option ℝ) :=
  v.map (fun t => ndivOpt (t - mean v) (std v))

/-- The idealised (finite-arithmetic) values of the z-score transform. -/
def zscoreVals (v : List ℝ) : List ℝ :=
  v.map (fun t => (t - mean v) / std v)

/-- Read finite values out of an optional-valued column (`none` ↦ 0). -/
def unsome (v : List (Option ℝ)) : List ℝ := v.map (fun o => o.getD 0)

/-- Periodic (scipy `mode='wrap'`) index folding. -/
def wrapIdx (n : Nat) (t : Int) : Nat :=
  if n = 0 then 0 else ((t.emod n + n).toNat) % n

/-- Reflected (scipy `mode='reflect'`, `(d c b a | a b c d | d c b a)`) index
folding. -/
def reflectIdx (n : Nat) (t : Int) : Nat :=
  if n = 0 then 0
  else
    let m := ((t.emod (2 * n) + 2 * n).toNat) % (2 * n)
    if m < n then m else 2 * n - 1 - m

/-- scipy `ndimage.convolve(x, k, mode='wrap')`: output has the shape of `x`;
out-of-image indices wrap periodically; the kernel is centred. -/
def convolveWrap (x k : Mat) : Mat :=
  (List.range x.numRows).map (fun i =>
    (List.range x.numCols).map (fun j =>
      ((List.range k.numRows).map (fun a =>
        ((List.range k.numCols).map (fun b =>
          Mat.get k a b *
            Mat.get x (wrapIdx x.numRows (i + k.numRows / 2 - a))
                      (wrapIdx x.numCols (j + k.numCols / 2 - b)))).sum)).sum))

/-- scipy `ndimage.convolve(x, k, mode='reflect')`: like `convolveWrap` with
reflected boundary handling. -/
def convolveReflect (x k : Mat) : Mat :=
  (List.range x.numRows).map (fun i =>
    (List.range x.numCols).map (fun j =>
      ((List.range k.numRows).map (fun a =>
        ((List.range k.numCols).map (fun b =>
          Mat.get k a b *
            Mat.get x (reflectIdx x.numRows (i + k.numRows / 2 - a))
                      (reflectIdx x.numCols (j + k.numCols / 2 - b)))).sum)).sum))

/-!  ## GaborFilterSki (`feature.py` lines 12-87)

The skimage-backed Gabor filter bank.  The external kernel generator
`np.real(gabor_kernel(frequency, theta, sigma_x, sigma_y))` is a black-box
parameter `gk : ℝ → ℝ → ℝ → ℝ → Mat` (frequency, theta, sigma_x, sigma_y).
-/

/-- State of a `GaborFilterSki` instance: the attributes assigned by
`__init__` (`_freq_t`, `_theta_r`, `_sigma_t`, `_kernels`), plus the list of
instance attribute names that have been assigned, used to model Python
attribute lookup. -/
structure GaborFilterSki where
  freq_t : List ℝ
  theta_r : Nat
  sigma_t : List ℝ
  kernels : List Mat
  attrNames : List String

/-- `GaborFilterSki.__init__`: the kernel bank is built once by the triple
loop over `range(theta_r)`, `sigma_tuple` and `freq_t`, appending
`np.real(gabor_kernel(frequency, theta/theta_r*pi, sigma, sigma))`. -/
def GaborFilterSki.init (gk : ℝ → ℝ → ℝ → ℝ → Mat)
    (freq_t : List ℝ) (theta_r : Nat) (sigma_t : List ℝ) : GaborFilterSki :=
  { freq_t := freq_t
    theta_r := theta_r
    sigma_t := sigma_t
    kernels :=
      (List.range theta_r).flatMap (fun t =>
        sigma_t.flatMap (fun s =>
          freq_t.map (fun f =>
            gk f ((t : ℝ) / (theta_r : ℝ) * Real.pi) s s)))
    attrNames := ["_freq_t", "_theta_r", "_sigma_t", "_kernels"] }

/-- The per-kernel statistics written into `feats` before normalization
(`filter`, lines 57-61): row `k` holds the mean and the variance of the
wrap-mode convolution of `x` with kernel `k`. -/
def GaborFilterSki.preStats (g : GaborFilterSki) (x : Mat) : List (ℝ × ℝ) :=
  g.kernels.map (fun k =>
    ((convolveWrap x k).meanAll, (convolveWrap x k).varAll))

/-- `GaborFilterSki.filter` (lines 56-66): per-kernel (mean, variance) rows,
then each of the two columns is z-score normalized across kernels. -/
def GaborFilterSki.filter (g : GaborFilterSki) (x : Mat) :
    List (Option ℝ × Option ℝ) :=
  (zscore ((g.preStats x).map Prod.fst)).zip
    (zscore ((g.preStats x).map Prod.snd))

/-- `GaborFilterSki.compute` (lines 33-46): builds the (discarded) column
matrix, then maps `self.filter` over the images; the labels `y` are unused. -/
def GaborFilterSki.compute (g : GaborFilterSki) (X : List Mat)
    (_y : List Nat) : List (List (Option ℝ × Option ℝ)) :=
  X.map (fun x => g.filter x)

/-- `GaborFilterSki.extract` (lines 48-54): applies the filter to one image. -/
def GaborFilterSki.extract (g : GaborFilterSki) (x : Mat) :
    List (Option ℝ × Option ℝ) :=
  g.filter x

/-- `GaborFilterSki.convolve_to_col` (lines 68-73): each kernel's reflect-mode
response flattened to one row. -/
def GaborFilterSki.convolve_to_col (g : GaborFilterSki) (x : Mat) : Mat :=
  g.kernels.map (fun k => (convolveReflect x k).entries)

/-- `GaborFilterSki.raw_convolve` (lines 75-80): the stack of reflect-mode
response maps, one per kernel. -/
def GaborFilterSki.raw_convolve (g : GaborFilterSki) (x : Mat) : List Mat :=
  g.kernels.map (fun k => convolveReflect x k)

/-- `GaborFilterSki.prop` (lines 82-84): Python attribute lookup of `_prop`;
lookup of an attribute that is not among the assigned attribute names raises
`AttributeError`. -/
def GaborFilterSki.prop (g : GaborFilterSki) : Except String Unit :=
  if "_prop" ∈ g.attrNames then Except.ok () else Except.error "AttributeError: _prop"

/-- An observable method call on a `GaborFilterSki` instance. -/
inductive SkiOp where
  | computeOp (X : List Mat) (y : List Nat)
  | extractOp (x : Mat)
  | filterOp (x : Mat)

/-- Effect of one method call on the instance state: `compute`, `extract` and
`filter` (lines 33-66) contain no assignment to `self`, so each call returns
its value and leaves every instance attribute unchanged. -/
def GaborFilterSki.step (g : GaborFilterSki) : SkiOp → GaborFilterSki
  | SkiOp.computeOp _ _ => g
  | SkiOp.extractOp _ => g
  | SkiOp.filterOp _ => g

/-- Instance state after a sequence of method calls. -/
def GaborFilterSki.runOps (g : GaborFilterSki) (ops : List SkiOp) :
    GaborFilterSki :=
  ops.foldl GaborFilterSki.step g

/-!  ## GaborFilterCv2 (`feature.py` lines 90-147)

The cv2-backed bank.  `cv2.getGaborKernel((ksize, ksize), 4.0, theta, 10.0,
0.5, 0)` is a black-box parameter `gk : Nat → ℝ → Mat` (kernel size, theta),
and `cv2.filter2D(x, cv2.CV_8UC3, v)` a black-box parameter
`f2d : Mat → Mat → Mat` (image, kernel) returning a response of the image's
shape. -/

/-- Sum of all entries of a 2D array (`kernel.sum()`). -/
def Mat.sumAll (m : Mat) : ℝ := m.entries.sum

/-- Scale every entry of a 2D array. -/
def Mat.scale (c : ℝ) (m : Mat) : Mat := m.map (fun r => r.map (fun t => c * t))

/-- Element-wise maximum of two equally shaped arrays (`np.maximum`). -/
def matMax (a b : Mat) : Mat := List.zipWith (List.zipWith max) a b

/-- `np.zeros_like(x)`. -/
def zerosLike (x : Mat) : Mat := x.map (fun r => r.map (fun _ => (0 : ℝ)))

/-- State of a `GaborFilterCv2` instance. -/
structure GaborFilterCv2 where
  orient_cnt : Nat
  scale_cnt : Nat
  kernels : List Mat

/-- `int(199 / 2**scale + 0.5)` over exact arithmetic. -/
def cv2Ksize (scale : Nat) : Nat := (398 + 2 ^ scale) / 2 ^ (scale + 1)

/-- `GaborFilterCv2.build_filters` (lines 103-112): for each of the
`orient_cnt` thetas of `np.arange(0, pi, pi/orient_cnt)` and each scale, one
kernel `cv2.getGaborKernel(...)` scaled by `1 / (1.5 * kernel.sum())`.
(`np.arange(0, pi, pi/orient_cnt)` has exactly `orient_cnt` elements
`o*pi/orient_cnt` for positive `orient_cnt`; the model uses `List.range`.) -/
def GaborFilterCv2.buildFilters (gk : Nat → ℝ → Mat)
    (orient_cnt scale_cnt : Nat) : List Mat :=
  (List.range orient_cnt).flatMap (fun o =>
    (List.range scale_cnt).map (fun s =>
      let kernel := gk (cv2Ksize s) ((o : ℝ) * (Real.pi / (orient_cnt : ℝ)))
      Mat.scale (1 / (3 / 2 * kernel.sumAll)) kernel))

/-- `GaborFilterCv2.__init__` (lines 96-101): stores the counts and builds the
kernel bank once. -/
def GaborFilterCv2.init (gk : Nat → ℝ → Mat) (orient_cnt scale_cnt : Nat) :
    GaborFilterCv2 :=
  { orient_cnt := orient_cnt
    scale_cnt := scale_cnt
    kernels := GaborFilterCv2.buildFilters gk orient_cnt scale_cnt }

/-- `GaborFilterCv2.filter` (lines 137-144): a single accumulator starts as
`np.zeros_like(x)`; for each kernel in sequence `np.maximum(accum, filtered,
accum)` updates it in place and `feats[i] = accum` stores its current value.
`List.scanl` records the successive accumulator values. -/
def GaborFilterCv2.filter (f2d : Mat → Mat → Mat) (g : GaborFilterCv2)
    (x : Mat) : List Mat :=
  (g.kernels.scanl (fun accum v => matMax accum (f2d x v)) (zerosLike x)).tail

/-- `GaborFilterCv2.compute` (lines 114-127): maps `self.filter` over the
images; the labels `y` are unused. -/
def GaborFilterCv2.compute (f2d : Mat → Mat → Mat) (g : GaborFilterCv2)
    (X : List Mat) (_y : List Nat) : List (List Mat) :=
  X.map (fun x => GaborFilterCv2.filter f2d g x)

/-- `GaborFilterCv2.extract` (lines 129-135). -/
def GaborFilterCv2.extract (f2d : Mat → Mat → Mat) (g : GaborFilterCv2)
    (x : Mat) : List Mat :=
  GaborFilterCv2.filter f2d g x

/-- An observable method call on a `GaborFilterCv2` instance. -/
inductive Cv2Op where
  | computeOp (X : List Mat) (y : List Nat)
  | extractOp (x : Mat)
  | filterOp (x : Mat)

/-- `compute`, `extract` and `filter` (lines 114-144) assign no instance
attribute (`accum` and `feats` are locals), so a call leaves the state
unchanged. -/
def GaborFilterCv2.step (g : GaborFilterCv2) : Cv2Op → GaborFilterCv2
  | Cv2Op.computeOp _ _ => g
  | Cv2Op.extractOp _ => g
  | Cv2Op.filterOp _ => g

/-- Instance state after a sequence of method calls. -/
def GaborFilterCv2.runOps (g : GaborFilterCv2) (ops : List Cv2Op) :
    GaborFilterCv2 :=
  ops.foldl GaborFilterCv2.step g

/-- The element-wise maximum over the responses of the kernels belonging to
the same orientation/scale combination as kernel `i` (the kernels are laid out
orientation-major, `scale_cnt` per orientation), as asserted by the spec for
`GaborFilterCv2.filter`. -/
def GaborFilterCv2.groupMax (f2d : Mat → Mat → Mat) (g : GaborFilterCv2)
    (x : Mat) (i : Nat) : Mat :=
  let rs := ((List.range g.kernels.length).filter (fun j =>
      j / g.scale_cnt == i / g.scale_cnt && j % g.scale_cnt == i % g.scale_cnt)).map
    (fun j => f2d x (g.kernels.getD j []))
  rs.foldl matMax (rs.headD (zerosLike x))

/-- The value `feats[i]` actually holds: the element-wise maximum of the zero
accumulator and the responses of all kernels up to and including kernel `i`. -/
def GaborFilterCv2.cumMax (f2d : Mat → Mat → Mat) (g : GaborFilterCv2)
    (x : Mat) (i : Nat) : Mat :=
  (g.kernels.take (i + 1)).foldl (fun accum v => matMax accum (f2d x v))
    (zerosLike x)

/-!  ## Spatial histogram variants (`feature.py` lines 150-171)

The parent class `SpatialHistogram` is not part of the source file.
Modelled from the spec: its per-map `spatially_enhanced_histogram` computes a
local-binary-pattern histogram per grid cell and combines the cells by
concatenation into one flat vector (the "longer vector" of §4.2).  The
per-cell histogram family of one map is a black-box parameter
`cellH : Mat → List (List ℝ)` (one histogram vector per grid cell). -/

/-- Modelled from the spec: the parent class's per-map spatially enhanced
histogram — the per-cell histograms of the map concatenated into one flat
vector. -/
def parentSEH (cellH : Mat → List (List ℝ)) (x : Mat) : List ℝ :=
  (cellH x).flatten

/-- `MultiScaleSpatialHistogram.spatially_enhanced_histogram` (lines 154-159):
the parent result of each map in the stack, appended (`hists.append`) into an
array of per-map histograms. -/
def MultiScaleSpatialHistogram.seh (cellH : Mat → List (List ℝ))
    (X : List Mat) : List (List ℝ) :=
  X.map (fun x => parentSEH cellH x)

/-- `ConcatenatedSpatialHistogram.spatially_enhanced_histogram` (lines
166-171): the parent results extended (`hists.extend`) into one flat vector. -/
def ConcatenatedSpatialHistogram.seh (cellH : Mat → List (List ℝ))
    (X : List Mat) : List ℝ :=
  (X.map (fun x => parentSEH cellH x)).flatten

/-!  ## ChainOperator and the composite pipelines (`feature.py` lines 174-226)

`ChainOperator`, `AbstractFeature` and `Fisherfaces` live in the external
`facerec_py` package, not in the source file; they are modelled from the
spec. -/

/-- A stateless feature operator: a batch `compute` and a per-sample `extract`
whose failures propagate as `Except.error`. -/
structure FeatureOperatorM (α β : Type) where
  computeFn : List α → List Nat → List β
  extractFn : α → Except String β

/-- Modelled from the spec: `ChainOperator` wraps two operators; `compute(X,
y)` calls A's compute and feeds its output list (with the same labels) into
B's compute; `extract` feeds A's extract result into B's extract; the first
failure aborts and propagates with no translation. -/
def ChainOperator (A : FeatureOperatorM α β) (B : FeatureOperatorM β γ) :
    FeatureOperatorM α γ :=
  { computeFn := fun X y => B.computeFn (A.computeFn X y) y
    extractFn := fun x => (A.extractFn x).bind B.extractFn }

/-- The Gabor stage of `LGBPHS` (lines 181-182): `GaborFilterSki(theta_r=2,
sigma_tuple=(1,))` whose `filter` attribute is rebound to `raw_convolve`. -/
def LGBPHS.gabor (gk : ℝ → ℝ → ℝ → ℝ → Mat) : GaborFilterSki :=
  GaborFilterSki.init gk [0.05, 0.15, 0.25] 2 [1]

/-- `LGBPHS.compute` (lines 187-188): `ChainOperator(gabor, lbp).compute`,
where the gabor stage's `filter` has been rebound to `raw_convolve` and the
lbp stage is a `MultiScaleSpatialHistogram` whose compute maps its
spatially-enhanced histogram over the batch, ignoring the labels. -/
def LGBPHS.compute (gk : ℝ → ℝ → ℝ → ℝ → Mat)
    (cellH : Mat → List (List ℝ)) (X : List Mat) (_y : List Nat) :
    List (List (List ℝ)) :=
  (X.map (fun x => (LGBPHS.gabor gk).raw_convolve x)).map
    (fun maps => MultiScaleSpatialHistogram.seh cellH maps)

/-- `LGBPHS.extract` (lines 190-191). -/
def LGBPHS.extract (gk : ℝ → ℝ → ℝ → ℝ → Mat)
    (cellH : Mat → List (List ℝ)) (x : Mat) : List (List ℝ) :=
  MultiScaleSpatialHistogram.seh cellH ((LGBPHS.gabor gk).raw_convolve x)

/-!  ## GaborFilterFisher (`feature.py` lines 210-226) -/

/-- Modelled from the spec: the Fisherfaces stage has two states — unfitted
(no `compute` yet) and fitted (holding learned projection parameters of some
type `P`).  Its `compute` fits parameters `fit X y` on the labelled batch and
projects every sample; its `extract` before fitting is unguarded and fails
with the attribute error of the unset projection parameters, after fitting it
projects the sample. -/
def fisherOp (P : Type) (fit : List Mat → List Nat → P) (proj : P → Mat → Mat)
    (st : Option P) : FeatureOperatorM Mat Mat :=
  { computeFn := fun X y => X.map (proj (fit X y))
    extractFn := fun m =>
      match st with
      | none => Except.error "AttributeError: _eigenvectors"
      | some p => Except.ok (proj p m) }

/-- The Gabor stage of `GaborFilterFisher` as a stateless operator: its
`filter` attribute is rebound to `convolve_to_col` (line 214), and neither
`compute` nor `extract` can fail. -/
def gaborColOp (gb : GaborFilterSki) : FeatureOperatorM Mat Mat :=
  { computeFn := fun X _ => X.map (fun x => gb.convolve_to_col x)
    extractFn := fun x => Except.ok (gb.convolve_to_col x) }

/-- State of a `GaborFilterFisher` instance: the persistent `_gabor` and
`_fisher` instance fields (lines 213-215). -/
structure GaborFilterFisher (P : Type) where
  gabor : GaborFilterSki
  fisher : Option P

/-- `GaborFilterFisher.__init__` (lines 211-215): a
`GaborFilterSki(theta_r=2, sigma_tuple=(1,))` with `filter` rebound to
`convolve_to_col`, and an unfitted `Fisherfaces(14)`. -/
def GaborFilterFisher.init (P : Type) (gk : ℝ → ℝ → ℝ → ℝ → Mat) :
    GaborFilterFisher P :=
  { gabor := GaborFilterSki.init gk [0.05, 0.15, 0.25] 2 [1]
    fisher := none }

/-- `GaborFilterFisher.compute` (lines 217-219): builds a fresh
`ChainOperator(self._gabor, self._fisher)` and runs its compute; the
Fisherfaces stage thereby stores the fitted projection parameters in the
persistent `_fisher` field (modelled by returning the updated state together
with the computed features). -/
def GaborFilterFisher.compute (fit : List Mat → List Nat → P)
    (proj : P → Mat → Mat) (g : GaborFilterFisher P) (X : List Mat)
    (y : List Nat) : GaborFilterFisher P × List Mat :=
  ({ g with
      fisher := some (fit (X.map (fun x => g.gabor.convolve_to_col x)) y) },
    (ChainOperator (gaborColOp g.gabor) (fisherOp P fit proj g.fisher)).computeFn
      X y)

/-- `GaborFilterFisher.extract` (lines 221-223): builds a fresh
`ChainOperator(self._gabor, self._fisher)` and runs its extract; no instance
field is assigned. -/
def GaborFilterFisher.extract (fit : List Mat → List Nat → P)
    (proj : P → Mat → Mat) (g : GaborFilterFisher P) (x : Mat) :
    Except String Mat :=
  (ChainOperator (gaborColOp g.gabor) (fisherOp P fit proj g.fisher)).extractFn x

/-- The pre-normalization mean column of `GaborFilterSki.filter`'s `feats`
(`feats[:, 0]` before the z-score step). -/
def GaborFilterSki.statMeans (g : GaborFilterSki) (x : Mat) : List ℝ :=
  (g.preStats x).map Prod.fst

/-- The pre-normalization variance column of `GaborFilterSki.filter`'s `feats`
(`feats[:, 1]` before the z-score step). -/
def GaborFilterSki.statVars (g : GaborFilterSki) (x : Mat) : List ℝ :=
  (g.preStats x).map Prod.snd

/-- The zero image of shape m×n. -/
def zeroImage (m n : Nat) : Mat := List.replicate m (List.replicate n (0 : ℝ))

/-- A concrete stand-in for the external skimage kernel generator, used to
instantiate universally quantified theorems at a checkable input: the 1×1
kernel holding the requested frequency. -/
def kernelOfFreq : ℝ → ℝ → ℝ → ℝ → Mat := fun f _ _ _ => [[f]]

/-- A concrete stand-in for the external cv2 kernel generator. -/
def cv2KernelOne : Nat → ℝ → Mat := fun _ _ => [[1]]

/-- A concrete stand-in for `cv2.filter2D` that returns the image itself. -/
def filter2dId : Mat → Mat → Mat := fun x _ => x

/-- A concrete per-cell histogram family: every map has two grid cells, each
with a one-bin histogram. -/
def cellHPair : Mat → List (List ℝ) := fun _ => [[0], [0]]

/-- A concrete trivial Fisherfaces fit for witness instantiation. -/
def trivialFit : List Mat → List Nat → Unit := fun _ _ => ()

/-- A concrete trivial Fisherfaces projection for witness instantiation. -/
def trivialProj : Unit → Mat → Mat := fun _ m => m

/-- The identity feature operator on ℕ, a concrete stateless operator for
witness instantiation. -/
def idOpNat : FeatureOperatorM Nat Nat :=
  { computeFn := fun X _ => X
    extractFn := fun n => Except.ok n }

/-!  ## Helper lemmas -/

lemma sum_map_affine (a b : ℝ) (v : List ℝ) :
    (v.map (fun t => a * t + b)).sum = a * v.sum + b * v.length := by
  induction v with
  | nil => simp
  | cons x xs ih =>
    simp only [List.map_cons, List.sum_cons, ih, List.length_cons]
    push_cast
    ring

lemma length_ne_zero_cast (v : List ℝ) (h : v ≠ []) : (v.length : ℝ) ≠ 0 := by
  exact_mod_cast (List.length_pos.mpr h).ne'

lemma mean_map_affine (a b : ℝ) (v : List ℝ) (h : v ≠ []) :
    mean (v.map (fun t => a * t + b)) = a * mean v + b := by
  have hl := length_ne_zero_cast v h
  unfold mean
  rw [List.length_map, sum_map_affine]
  field_simp

lemma map_ne_nil {α β : Type} (f : α → β) (v : List α) (h : v ≠ []) :
    v.map f ≠ [] := by
  cases v with
  | nil => exact absurd rfl h
  | cons a t => simp

lemma variance_map_affine (a b : ℝ) (v : List ℝ) (h : v ≠ []) :
    variance (v.map (fun t => a * t + b)) = a ^ 2 * variance v := by
  unfold variance
  rw [mean_map_affine a b v h, List.map_map]
  have h1 : ((fun t => (t - (a * mean v + b)) ^ 2) ∘ (fun t => a * t + b))
      = fun t => a ^ 2 * (t - mean v) ^ 2 + 0 := by
    funext t
    simp only [Function.comp]
    ring
  rw [h1]
  have h2 : v.map (fun t => a ^ 2 * (t - mean v) ^ 2 + 0)
      = (v.map (fun t => (t - mean v) ^ 2)).map (fun s => a ^ 2 * s + 0) := by
    rw [List.map_map]
    rfl
  rw [h2, mean_map_affine _ _ _ (map_ne_nil _ v h)]
  ring

lemma variance_nonneg (v : List ℝ) : 0 ≤ variance v := by
  unfold variance mean
  apply div_nonneg _ (by positivity)
  apply List.sum_nonneg
  intro t ht
  simp only [List.mem_map] at ht
  obtain ⟨s, _, rfl⟩ := ht
  positivity

lemma mean_nil : mean [] = 0 := by simp [mean]

lemma std_nil : std [] = 0 := by
  simp [std, variance, mean]

lemma ne_nil_of_std_ne_zero (v : List ℝ) (h : std v ≠ 0) : v ≠ [] := by
  intro hv
  subst hv
  exact h std_nil

lemma zscoreVals_eq_affine (v : List ℝ) :
    zscoreVals v = v.map (fun t => (1 / std v) * t + (-(mean v) / std v)) := by
  unfold zscoreVals
  congr 1
  funext t
  ring

lemma mean_zscoreVals (v : List ℝ) (h : v ≠ []) : mean (zscoreVals v) = 0 := by
  rw [zscoreVals_eq_affine, mean_map_affine _ _ _ h]
  ring

lemma variance_zscoreVals (v : List ℝ) (h : std v ≠ 0) :
    variance (zscoreVals v) = 1 := by
  have hnil := ne_nil_of_std_ne_zero v h
  rw [zscoreVals_eq_affine, variance_map_affine _ _ _ hnil]
  have h2 : std v ^ 2 = variance v := Real.sq_sqrt (variance_nonneg v)
  rw [← h2]
  field_simp

lemma zscore_eq_map_some (v : List ℝ) (h : std v ≠ 0) :
    zscore v = (zscoreVals v).map some := by
  unfold zscore zscoreVals
  rw [List.map_map]
  congr 1
  funext t
  simp [ndivOpt, h, Function.comp]

lemma unsome_map_some (v : List ℝ) : unsome (v.map some) = v := by
  unfold unsome
  rw [List.map_map]
  have h1 : ((fun o => Option.getD o 0) ∘ (some : ℝ → Option ℝ)) = id := by
    funext t
    rfl
  rw [h1, List.map_id]

lemma mean_eq_zero_of_forall_zero (v : List ℝ) (h : ∀ t ∈ v, t = 0) :
    mean v = 0 := by
  unfold mean
  rw [List.sum_eq_zero h]
  exact zero_div _

lemma variance_eq_zero_of_forall_zero (v : List ℝ) (h : ∀ t ∈ v, t = 0) :
    variance v = 0 := by
  unfold variance
  apply mean_eq_zero_of_forall_zero
  intro s hs
  simp only [List.mem_map] at hs
  obtain ⟨t, ht, rfl⟩ := hs
  rw [h t ht, mean_eq_zero_of_forall_zero v h]
  ring

lemma getD_replicate_zero (n j : Nat) :
    (List.replicate n (0 : ℝ)).getD j 0 = 0 := by
  induction n generalizing j with
  | zero => simp
  | succ n ih =>
    cases j with
    | zero => simp [List.replicate_succ]
    | succ j =>
      rw [List.replicate_succ, List.getD_cons_succ]
      exact ih j

lemma get_zeroImage (m n i j : Nat) : Mat.get (zeroImage m n) i j = 0 := by
  unfold Mat.get zeroImage
  induction m generalizing i with
  | zero => simp
  | succ m ih =>
    cases i with
    | zero =>
      rw [List.replicate_succ, List.getD_cons_zero]
      exact getD_replicate_zero n j
    | succ i =>
      rw [List.replicate_succ, List.getD_cons_succ]
      exact ih i

lemma forall_entries_convolveWrap_zero (m n : Nat) (k : Mat) :
    ∀ t ∈ (convolveWrap (zeroImage m n) k).entries, t = 0 := by
  intro t ht
  simp only [convolveWrap, Mat.entries, List.mem_flatten, List.mem_map,
    List.mem_range] at ht
  obtain ⟨row, ⟨i, _, rfl⟩, hrow⟩ := ht
  simp only [List.mem_map, List.mem_range] at hrow
  obtain ⟨j, _, rfl⟩ := hrow
  apply List.sum_eq_zero
  intro s hs
  simp only [List.mem_map, List.mem_range] at hs
  obtain ⟨a, _, rfl⟩ := hs
  apply List.sum_eq_zero
  intro s hs
  simp only [List.mem_map, List.mem_range] at hs
  obtain ⟨b, _, rfl⟩ := hs
  rw [get_zeroImage, mul_zero]

lemma map_const_replicate {α β : Type} (l : List α) (c : β) :
    l.map (fun _ => c) = List.replicate l.length c := by
  induction l with
  | nil => rfl
  | cons a t ih => simp [List.replicate_succ, ih]

lemma zip_replicate_same {α β : Type} (n : Nat) (a : α) (b : β) :
    (List.replicate n a).zip (List.replicate n b) = List.replicate n (a, b) := by
  induction n with
  | zero => rfl
  | succ n ih => simp [List.replicate_succ, ih]

lemma length_flatMap_const {α β : Type} (l : List α) (f : α → List β) (c : Nat)
    (h : ∀ a ∈ l, (f a).length = c) : (l.flatMap f).length = l.length * c := by
  induction l with
  | nil => simp
  | cons a t ih =>
    simp only [List.flatMap_cons, List.length_append, List.length_cons]
    rw [h a (List.mem_cons_self a t), ih (fun x hx => h x (List.mem_cons_of_mem a hx))]
    ring

lemma scanl_getD_zero {α β : Type} (f : β → α → β) (b : β) (l : List α)
    (d : β) : (List.scanl f b l).getD 0 d = b := by
  cases l <;> simp [List.scanl]

lemma scanl_getD_succ {α β : Type} (f : β → α → β) (l : List α) :
    ∀ (b : β) (i : Nat), i < l.length → ∀ d,
      (List.scanl f b l).getD (i + 1) d = (l.take (i + 1)).foldl f b := by
  induction l with
  | nil =>
    intro b i h d
    simp at h
  | cons a l ih =>
    intro b i h d
    rw [List.scanl_cons, List.singleton_append, List.getD_cons_succ]
    cases i with
    | zero =>
      rw [scanl_getD_zero f (f b a) l d]
      simp
    | succ i =>
      have h2 : i < l.length := by
        simp only [List.length_cons] at h
        omega
      cases l with
      | nil => exact absurd h2 (by simp)
      | cons c l2 =>
        rw [ih (f b a) i h2 d]
        simp [List.take_succ_cons]

lemma scanl_tail_getD {α β : Type} (f : β → α → β) (b : β) (l : List α)
    (i : Nat) (h : i < l.length) (d : β) :
    ((List.scanl f b l).tail).getD i d = (l.take (i + 1)).foldl f b := by
  cases l with
  | nil => exact absurd h (by simp)
  | cons a l2 =>
    rw [List.scanl_cons, List.singleton_append, List.tail_cons]
    have h3 := scanl_getD_succ f (a :: l2) b i h d
    rwa [List.scanl_cons, List.singleton_append, List.getD_cons_succ] at h3

lemma statMeans_eq (g : GaborFilterSki) (x : Mat) :
    g.statMeans x = g.kernels.map (fun k => (convolveWrap x k).meanAll) := by
  unfold GaborFilterSki.statMeans GaborFilterSki.preStats
  rw [List.map_map]
  rfl

lemma statVars_eq (g : GaborFilterSki) (x : Mat) :
    g.statVars x = g.kernels.map (fun k => (convolveWrap x k).varAll) := by
  unfold GaborFilterSki.statVars GaborFilterSki.preStats
  rw [List.map_map]
  rfl

lemma filter_eq_zip (g : GaborFilterSki) (x : Mat) :
    g.filter x = (zscore (g.statMeans x)).zip (zscore (g.statVars x)) := rfl

lemma zscore_length (v : List ℝ) : (zscore v).length = v.length := by
  simp [zscore]

lemma statCols_length (g : GaborFilterSki) (x : Mat) :
    (g.statMeans x).length = g.kernels.length
    ∧ (g.statVars x).length = g.kernels.length := by
  rw [statMeans_eq, statVars_eq]
  simp

lemma filter_col_fst (g : GaborFilterSki) (x : Mat) :
    (g.filter x).map Prod.fst = zscore (g.statMeans x) := by
  rw [filter_eq_zip]
  apply List.map_fst_zip
  rw [zscore_length, zscore_length, (statCols_length g x).1, (statCols_length g x).2]

lemma filter_col_snd (g : GaborFilterSki) (x : Mat) :
    (g.filter x).map Prod.snd = zscore (g.statVars x) := by
  rw [filter_eq_zip]
  apply List.map_snd_zip
  rw [zscore_length, zscore_length, (statCols_length g x).1, (statCols_length g x).2]

lemma zscoreVals_map {α : Type} (l : List α) (f : α → ℝ) :
    zscoreVals (l.map f)
      = l.map (fun a => (f a - mean (l.map f)) / std (l.map f)) := by
  unfold zscoreVals
  rw [List.map_map]
  rfl

lemma std_pair_ne_zero (a b : ℝ) (hab : a ≠ b) : std [a, b] ≠ 0 := by
  have h : variance [a, b] = ((a - b) / 2) ^ 2 := by
    simp [variance, mean]
    ring
  have h2 : ((a - b) / 2) ^ 2 ≠ 0 :=
    pow_ne_zero 2 (div_ne_zero (sub_ne_zero.mpr hab) two_ne_zero)
  unfold std
  rw [Real.sqrt_ne_zero', h]
  exact lt_of_le_of_ne (by positivity) (Ne.symm h2)

lemma statMeans_concrete :
    (GaborFilterSki.init kernelOfFreq [1, 3] 1 [1]).statMeans [[1, 3]]
      = [2, 6] := by
  rw [statMeans_eq]
  simp [GaborFilterSki.init, kernelOfFreq, convolveWrap, Mat.meanAll,
    Mat.entries, mean, variance, Mat.get, Mat.numRows, Mat.numCols, wrapIdx,
    List.range_succ]
  norm_num [show Int.toNat 2 = 2 from rfl, show Int.toNat 3 = 3 from rfl,
    List.getElem?_cons_zero, List.getElem?_cons_succ]

lemma statVars_concrete :
    (GaborFilterSki.init kernelOfFreq [1, 3] 1 [1]).statVars [[1, 3]]
      = [1, 9] := by
  rw [statVars_eq]
  simp [GaborFilterSki.init, kernelOfFreq, convolveWrap, Mat.varAll,
    Mat.entries, mean, variance, Mat.get, Mat.numRows, Mat.numCols, wrapIdx,
    List.range_succ]
  norm_num [show Int.toNat 2 = 2 from rfl, show Int.toNat 3 = 3 from rfl,
    List.getElem?_cons_zero, List.getElem?_cons_succ]

lemma std_statMeans_concrete :
    std ((GaborFilterSki.init kernelOfFreq [1, 3] 1 [1]).statMeans [[1, 3]])
      ≠ 0 := by
  rw [statMeans_concrete]
  exact std_pair_ne_zero 2 6 (by norm_num)

lemma std_statVars_concrete :
    std ((GaborFilterSki.init kernelOfFreq [1, 3] 1 [1]).statVars [[1, 3]])
      ≠ 0 := by
  rw [statVars_concrete]
  exact std_pair_ne_zero 1 9 (by norm_num)

lemma skiRunOps_eq (g : GaborFilterSki) (ops : List SkiOp) :
    g.runOps ops = g := by
  induction ops generalizing g with
  | nil => rfl
  | cons op t ih =>
    cases op <;> exact ih g

lemma cv2RunOps_eq (g : GaborFilterCv2) (ops : List Cv2Op) :
    g.runOps ops = g := by
  induction ops generalizing g with
  | nil => rfl
  | cons op t ih =>
    cases op <;> exact ih g

lemma preStats_zeroImage (g : GaborFilterSki) (m n : Nat) :
    g.preStats (zeroImage m n) = List.replicate g.kernels.length (0, 0) := by
  unfold GaborFilterSki.preStats
  have hf : ∀ k : Mat, ((convolveWrap (zeroImage m n) k).meanAll,
      (convolveWrap (zeroImage m n) k).varAll) = ((0 : ℝ), (0 : ℝ)) := by
    intro k
    have hz := forall_entries_convolveWrap_zero m n k
    unfold Mat.meanAll Mat.varAll
    rw [mean_eq_zero_of_forall_zero _ hz, variance_eq_zero_of_forall_zero _ hz]
  rw [show (fun k => ((convolveWrap (zeroImage m n) k).meanAll,
        (convolveWrap (zeroImage m n) k).varAll))
      = (fun _ : Mat => ((0 : ℝ), (0 : ℝ))) from funext hf]
  exact map_const_replicate _ _

lemma zscore_replicate_zero (c : Nat) :
    zscore (List.replicate c (0 : ℝ)) = List.replicate c none := by
  have hall : ∀ t ∈ List.replicate c (0 : ℝ), t = 0 :=
    fun t ht => List.eq_of_mem_replicate ht
  have hstd : std (List.replicate c (0 : ℝ)) = 0 := by
    unfold std
    rw [variance_eq_zero_of_forall_zero _ hall, Real.sqrt_zero]
  unfold zscore
  rw [show (fun t => ndivOpt (t - mean (List.replicate c (0 : ℝ)))
        (std (List.replicate c (0 : ℝ)))) = fun _ : ℝ => (none : Option ℝ)
      from funext (fun t => by rw [hstd]; simp [ndivOpt]),
    map_const_replicate, List.length_replicate]

/-!  ## Claim theorems -/

/-- Claim C1: for every `GaborFilterSki` instance, `filter(x)` returns an
array with one row per kernel and two columns, in which, before
normalization, row `k` holds the mean of the wrap-mode convolution of `x`
with kernel `k` in column 0 and its variance in column 1, and each of the two
columns is then z-score normalized across kernels, so that (whenever the
column is not degenerate, i.e. its standard deviation is nonzero) the
normalized column has mean exactly 0 and variance exactly 1. -/
theorem gaborSki_filter_statistics (g : GaborFilterSki) (x : Mat)
    (h0 : std (g.statMeans x) ≠ 0) (h1 : std (g.statVars x) ≠ 0) :
    g.filter x = g.kernels.map (fun k =>
        (some (((convolveWrap x k).meanAll - mean (g.statMeans x))
            / std (g.statMeans x)),
         some (((convolveWrap x k).varAll - mean (g.statVars x))
            / std (g.statVars x))))
    ∧ (g.filter x).length = g.kernels.length
    ∧ mean (unsome ((g.filter x).map Prod.fst)) = 0
    ∧ variance (unsome ((g.filter x).map Prod.fst)) = 1
    ∧ mean (unsome ((g.filter x).map Prod.snd)) = 0
    ∧ variance (unsome ((g.filter x).map Prod.snd)) = 1 := by
  refine ⟨?_, ?_, ?_, ?_, ?_, ?_⟩
  · rw [filter_eq_zip, zscore_eq_map_some _ h0, zscore_eq_map_some _ h1]
    have e0 : zscoreVals (g.statMeans x)
        = g.kernels.map (fun k =>
            ((convolveWrap x k).meanAll - mean (g.statMeans x))
              / std (g.statMeans x)) := by
      rw [statMeans_eq, zscoreVals_map, ← statMeans_eq]
    have e1 : zscoreVals (g.statVars x)
        = g.kernels.map (fun k =>
            ((convolveWrap x k).varAll - mean (g.statVars x))
              / std (g.statVars x)) := by
      rw [statVars_eq, zscoreVals_map, ← statVars_eq]
    rw [e0, e1, List.map_map, List.map_map, List.zip_map']
    rfl
  · rw [filter_eq_zip]
    rw [List.length_zip, zscore_length, zscore_length,
      (statCols_length g x).1, (statCols_length g x).2]
    exact Nat.min_self _
  · rw [filter_col_fst, zscore_eq_map_some _ h0, unsome_map_some]
    exact mean_zscoreVals _ (ne_nil_of_std_ne_zero _ h0)
  · rw [filter_col_fst, zscore_eq_map_some _ h0, unsome_map_some]
    exact variance_zscoreVals _ h0
  · rw [filter_col_snd, zscore_eq_map_some _ h1, unsome_map_some]
    exact mean_zscoreVals _ (ne_nil_of_std_ne_zero _ h1)
  · rw [filter_col_snd, zscore_eq_map_some _ h1, unsome_map_some]
    exact variance_zscoreVals _ h1

/-- Witness for C1: the filter statistics theorem applied to a concrete
instance (kernels `[[1]]` and `[[3]]`) and the concrete image `[[1, 3]]`, at
which both pre-normalization columns have nonzero standard deviation. -/
theorem gaborSki_filter_statistics_witness :
    std ((GaborFilterSki.init kernelOfFreq [1, 3] 1 [1]).statMeans [[1, 3]]) ≠ 0
    ∧ std ((GaborFilterSki.init kernelOfFreq [1, 3] 1 [1]).statVars [[1, 3]]) ≠ 0
    ∧ ((GaborFilterSki.init kernelOfFreq [1, 3] 1 [1]).filter [[1, 3]]
          = (GaborFilterSki.init kernelOfFreq [1, 3] 1 [1]).kernels.map (fun k =>
              (some (((convolveWrap [[1, 3]] k).meanAll
                  - mean ((GaborFilterSki.init kernelOfFreq [1, 3] 1 [1]).statMeans [[1, 3]]))
                  / std ((GaborFilterSki.init kernelOfFreq [1, 3] 1 [1]).statMeans [[1, 3]])),
               some (((convolveWrap [[1, 3]] k).varAll
                  - mean ((GaborFilterSki.init kernelOfFreq [1, 3] 1 [1]).statVars [[1, 3]]))
                  / std ((GaborFilterSki.init kernelOfFreq [1, 3] 1 [1]).statVars [[1, 3]]))))
        ∧ ((GaborFilterSki.init kernelOfFreq [1, 3] 1 [1]).filter [[1, 3]]).length
            = (GaborFilterSki.init kernelOfFreq [1, 3] 1 [1]).kernels.length
        ∧ mean (unsome (((GaborFilterSki.init kernelOfFreq [1, 3] 1 [1]).filter [[1, 3]]).map Prod.fst)) = 0
        ∧ variance (unsome (((GaborFilterSki.init kernelOfFreq [1, 3] 1 [1]).filter [[1, 3]]).map Prod.fst)) = 1
        ∧ mean (unsome (((GaborFilterSki.init kernelOfFreq [1, 3] 1 [1]).filter [[1, 3]]).map Prod.snd)) = 0
        ∧ variance (unsome (((GaborFilterSki.init kernelOfFreq [1, 3] 1 [1]).filter [[1, 3]]).map Prod.snd)) = 1) :=
  ⟨std_statMeans_concrete, std_statVars_concrete,
    gaborSki_filter_statistics (GaborFilterSki.init kernelOfFreq [1, 3] 1 [1])
      [[1, 3]] std_statMeans_concrete std_statVars_concrete⟩

/-- Claim C2: for every valid construction the kernel bank size equals the
product of the parameter-grid dimensions — `theta_r * |sigma_tuple| *
|freq_t|` for `GaborFilterSki` and `orient_cnt * scale_cnt` for
`GaborFilterCv2` — and the size is fixed at construction, unchanged by any
subsequent sequence of compute, extract or filter calls. -/
theorem kernel_bank_size (gk : ℝ → ℝ → ℝ → ℝ → Mat) (ft : List ℝ) (tr : Nat)
    (st : List ℝ) (ops : List SkiOp) (gk2 : Nat → ℝ → Mat) (oc sc : Nat)
    (ops2 : List Cv2Op) (_h : 0 < oc) :
    ((GaborFilterSki.init gk ft tr st).runOps ops).kernels.length
        = tr * st.length * ft.length
    ∧ ((GaborFilterCv2.init gk2 oc sc).runOps ops2).kernels.length
        = oc * sc := by
  rw [skiRunOps_eq, cv2RunOps_eq]
  constructor
  · unfold GaborFilterSki.init
    rw [length_flatMap_const _ _ (st.length * ft.length)
        (fun a _ => length_flatMap_const _ _ ft.length (fun s _ => by simp))]
    rw [List.length_range]
    ring
  · unfold GaborFilterCv2.init GaborFilterCv2.buildFilters
    rw [length_flatMap_const _ _ sc (fun o _ => by simp)]
    rw [List.length_range]

/-- Witness for C2: the kernel bank size theorem at a concrete instantiation
(`theta_r=1`, one sigma, two frequencies; `orient_cnt=scale_cnt=1`, no
subsequent calls). -/
theorem kernel_bank_size_witness :
    0 < 1
    ∧ (((GaborFilterSki.init kernelOfFreq [1, 3] 1 [1]).runOps []).kernels.length
          = 1 * [(1 : ℝ)].length * [(1 : ℝ), 3].length
        ∧ ((GaborFilterCv2.init cv2KernelOne 1 1).runOps []).kernels.length
            = 1 * 1) :=
  ⟨Nat.one_pos,
    kernel_bank_size kernelOfFreq [1, 3] 1 [1] [] cv2KernelOne 1 1 [] Nat.one_pos⟩

/-- Claim C5 (code evaluated at the failing input): constructing
`GaborFilterSki` with `theta_r=2`, `sigma_tuple=(1,)` and the default
`freq_t=(0.05, 0.15, 0.25)` yields exactly 6 kernels, and filtering the 32×32
all-zero image yields mean 0 and variance 0 for every kernel before
normalization; the subsequent z-score normalization of the all-zero columns,
however, divides by a zero standard deviation, so every entry of the returned
feature array is non-finite (`none`), contradicting the claim's "no NaN or
infinite entries". -/
theorem gaborSki_zero_image (gk : ℝ → ℝ → ℝ → ℝ → Mat) :
    (GaborFilterSki.init gk [0.05, 0.15, 0.25] 2 [1]).kernels.length = 6
    ∧ (GaborFilterSki.init gk [0.05, 0.15, 0.25] 2 [1]).preStats
          (zeroImage 32 32)
        = List.replicate 6 (0, 0)
    ∧ (GaborFilterSki.init gk [0.05, 0.15, 0.25] 2 [1]).filter (zeroImage 32 32)
        = List.replicate 6 (none, none) := by
  have hlen :
      (GaborFilterSki.init gk [0.05, 0.15, 0.25] 2 [1]).kernels.length = 6 := by
    unfold GaborFilterSki.init
    rw [length_flatMap_const _ _ 3 (fun a _ => by
      rw [length_flatMap_const _ _ 3 (fun s _ => by simp)]
      simp)]
    simp
  have hm : (GaborFilterSki.init gk [0.05, 0.15, 0.25] 2 [1]).statMeans
      (zeroImage 32 32) = List.replicate 6 (0 : ℝ) := by
    unfold GaborFilterSki.statMeans
    rw [preStats_zeroImage, hlen, List.map_replicate]
  have hv : (GaborFilterSki.init gk [0.05, 0.15, 0.25] 2 [1]).statVars
      (zeroImage 32 32) = List.replicate 6 (0 : ℝ) := by
    unfold GaborFilterSki.statVars
    rw [preStats_zeroImage, hlen, List.map_replicate]
  refine ⟨hlen, ?_, ?_⟩
  · rw [preStats_zeroImage, hlen]
  · rw [filter_eq_zip, hm, hv, zscore_replicate_zero, zip_replicate_same]

/-- Claim C10: reading the `prop` property of a `GaborFilterSki` instance
raises `AttributeError` after every sequence of compute, extract or filter
calls, because `_prop` is never among the assigned instance attributes. -/
theorem gaborSki_prop_attribute_error (gk : ℝ → ℝ → ℝ → ℝ → Mat) (ft : List ℝ)
    (tr : Nat) (st : List ℝ) (ops : List SkiOp) :
    ((GaborFilterSki.init gk ft tr st).runOps ops).prop
      = Except.error "AttributeError: _prop" := by
  rw [skiRunOps_eq]
  unfold GaborFilterSki.prop
  rw [show (GaborFilterSki.init gk ft tr st).attrNames
      = ["_freq_t", "_theta_r", "_sigma_t", "_kernels"] from rfl]
  rw [if_neg (by decide)]

/-- Counterexample to C3 as stated: with a single kernel (one orientation/one
scale combination) and a response map holding `-1`, the filter's slice 0 is
`[[0]]` (the accumulator starts from `np.zeros_like(x)` and is never reset),
while the element-wise maximum over the responses of that combination's
kernels is `[[-1]]`. -/
theorem cv2_filter_groupmax_counterexample :
    (GaborFilterCv2.filter filter2dId (GaborFilterCv2.init cv2KernelOne 1 1)
        [[-1]]).getD 0 []
      ≠ GaborFilterCv2.groupMax filter2dId (GaborFilterCv2.init cv2KernelOne 1 1)
          [[-1]] 0 := by
  have hmax : max (0 : ℝ) (-1) = 0 := max_eq_left (by norm_num)
  have hmax2 : max (-1 : ℝ) (-1) = -1 := max_self _
  simp [GaborFilterCv2.filter, GaborFilterCv2.groupMax, GaborFilterCv2.init,
    GaborFilterCv2.buildFilters, filter2dId, cv2KernelOne, matMax, zerosLike,
    List.range_succ, List.scanl, hmax, hmax2, Mat.scale, Mat.sumAll,
    Mat.entries]

/-- Claim C3 (amended): for every image `x` and kernel index `i`, slice `i` of
`GaborFilterCv2.filter(x)` is the element-wise maximum of the zero matrix and
the responses of all kernels `0..i` — a cumulative maximum over every kernel
processed so far (floored at zero by the initial accumulator), not the
maximum over the kernels of slice `i`'s orientation/scale combination. -/
theorem cv2_filter_cumulative_max (gk2 : Nat → ℝ → Mat) (f2d : Mat → Mat → Mat)
    (oc sc : Nat) (x : Mat) (i : Nat)
    (h : i < (GaborFilterCv2.init gk2 oc sc).kernels.length) :
    (GaborFilterCv2.filter f2d (GaborFilterCv2.init gk2 oc sc) x).getD i []
      = GaborFilterCv2.cumMax f2d (GaborFilterCv2.init gk2 oc sc) x i := by
  unfold GaborFilterCv2.filter GaborFilterCv2.cumMax
  exact scanl_tail_getD _ _ _ i h []

/-- Witness for C3's amended theorem: the cumulative-maximum description of
slice 0 at a concrete one-kernel instance. -/
theorem cv2_filter_cumulative_max_witness :
    0 < (GaborFilterCv2.init cv2KernelOne 1 1).kernels.length
    ∧ (GaborFilterCv2.filter filter2dId (GaborFilterCv2.init cv2KernelOne 1 1)
          [[5]]).getD 0 []
        = GaborFilterCv2.cumMax filter2dId (GaborFilterCv2.init cv2KernelOne 1 1)
            [[5]] 0 :=
  ⟨by decide,
    cv2_filter_cumulative_max cv2KernelOne filter2dId 1 1 [[5]] 0 (by decide)⟩

/-- Counterexample to C4 as stated: on a freshly constructed
`GaborFilterFisher` instance, `extract` does not report an explicit
"not fitted" error — the failure is the propagated attribute error of the
unfitted Fisherfaces stage. -/
theorem fisher_extract_not_fitted_counterexample :
    GaborFilterFisher.extract trivialFit trivialProj
        (GaborFilterFisher.init Unit kernelOfFreq) [[0]]
      ≠ Except.error "not fitted" := by
  intro hcontra
  have h1 : GaborFilterFisher.extract trivialFit trivialProj
      (GaborFilterFisher.init Unit kernelOfFreq) [[0]]
      = Except.error "AttributeError: _eigenvectors" := rfl
  rw [h1] at hcontra
  exact absurd (Except.error.inj hcontra) (by decide)

/-- Claim C4 (amended): calling `GaborFilterFisher.extract` on an instance on
which `compute` has never been called always fails — it returns the unfitted
Fisherfaces stage's propagated attribute error rather than silently returning
a feature vector — but the error is not an explicit "not fitted" error. -/
theorem fisher_extract_unfitted {P : Type} (fit : List Mat → List Nat → P)
    (proj : P → Mat → Mat) (gk : ℝ → ℝ → ℝ → ℝ → Mat) (x : Mat) :
    GaborFilterFisher.extract fit proj (GaborFilterFisher.init P gk) x
      = Except.error "AttributeError: _eigenvectors" := rfl

/-- Counterexample to C6 as stated: with a per-cell histogram family of two
cells per map and a three-map input stack,
`MultiScaleSpatialHistogram.spatially_enhanced_histogram` has length 3 (the
number of response maps), not the cell count 2. -/
theorem multiscale_histogram_cellcount_counterexample :
    (MultiScaleSpatialHistogram.seh cellHPair [[[1]], [[1]], [[1]]]).length
      ≠ (cellHPair [[(1 : ℝ)]]).length := by
  decide

/-- Claim C6 (amended): for every per-cell histogram family and input stack of
response maps, the concatenated variant returns one flat vector whose length
is the sum of the lengths of all per-cell histograms (over all maps and
cells), while the multi-scale variant returns the array of per-map enhanced
histograms, whose length equals the number of response maps in the stack (not
the cell count). -/
theorem spatial_histogram_lengths (cellH : Mat → List (List ℝ))
    (X : List Mat) :
    (ConcatenatedSpatialHistogram.seh cellH X).length
        = (X.map (fun x => ((cellH x).map List.length).sum)).sum
    ∧ MultiScaleSpatialHistogram.seh cellH X
        = X.map (fun x => (cellH x).flatten)
    ∧ (MultiScaleSpatialHistogram.seh cellH X).length = X.length := by
  refine ⟨?_, rfl, by simp [MultiScaleSpatialHistogram.seh]⟩
  simp only [ConcatenatedSpatialHistogram.seh, parentSEH, List.length_flatten,
    List.map_map]
  have h1 : (List.length ∘ fun x => ((cellH x).flatten : List ℝ))
      = fun x => ((cellH x).map List.length).sum := by
    funext x
    simp [Function.comp, List.length_flatten]
  rw [h1]

/-- Claim C7: for stateless feature operators `A` and `B`, the chain's
`extract` feeds `A`'s successful extract result into `B`'s extract, and the
chain's `compute` feeds `A`'s compute output list (with the same labels) into
`B`'s compute. -/
theorem chain_operator_composes {α β γ : Type} (A : FeatureOperatorM α β)
    (B : FeatureOperatorM β γ) (x : α) (X : List α) (y : List Nat) (b : β)
    (h : A.extractFn x = Except.ok b) :
    (ChainOperator A B).extractFn x = B.extractFn b
    ∧ (ChainOperator A B).computeFn X y = B.computeFn (A.computeFn X y) y := by
  constructor
  · show (A.extractFn x).bind B.extractFn = B.extractFn b
    rw [h]
    rfl
  · rfl

/-- Witness for C7: the chain composition theorem at the identity operator on
ℕ. -/
theorem chain_operator_composes_witness :
    idOpNat.extractFn 0 = Except.ok 0
    ∧ ((ChainOperator idOpNat idOpNat).extractFn 0 = idOpNat.extractFn 0
        ∧ (ChainOperator idOpNat idOpNat).computeFn [1, 2] [0, 0]
            = idOpNat.computeFn (idOpNat.computeFn [1, 2] [0, 0]) [0, 0]) :=
  ⟨rfl, chain_operator_composes idOpNat idOpNat 0 [1, 2] [0, 0] 0 rfl⟩

/-- Claim C8: `compute(X, y)` ignores the labels for `GaborFilterSki`,
`GaborFilterCv2` and `LGBPHS`: any two label lists of matching length give
identical outputs. -/
theorem compute_label_independent (gk : ℝ → ℝ → ℝ → ℝ → Mat) (ft : List ℝ)
    (tr : Nat) (st : List ℝ) (f2d : Mat → Mat → Mat) (gk2 : Nat → ℝ → Mat)
    (oc sc : Nat) (cellH : Mat → List (List ℝ)) (X : List Mat)
    (y1 y2 : List Nat) (_h : y1.length = y2.length) :
    (GaborFilterSki.init gk ft tr st).compute X y1
        = (GaborFilterSki.init gk ft tr st).compute X y2
    ∧ GaborFilterCv2.compute f2d (GaborFilterCv2.init gk2 oc sc) X y1
        = GaborFilterCv2.compute f2d (GaborFilterCv2.init gk2 oc sc) X y2
    ∧ LGBPHS.compute gk cellH X y1 = LGBPHS.compute gk cellH X y2 :=
  ⟨rfl, rfl, rfl⟩

/-- Witness for C8: label independence at concrete instances, a concrete
one-image batch and the distinct same-length label lists `[0]` and `[1]`. -/
theorem compute_label_independent_witness :
    [0].length = [1].length
    ∧ ((GaborFilterSki.init kernelOfFreq [1, 3] 1 [1]).compute [[[1, 3]]] [0]
          = (GaborFilterSki.init kernelOfFreq [1, 3] 1 [1]).compute [[[1, 3]]] [1]
        ∧ GaborFilterCv2.compute filter2dId (GaborFilterCv2.init cv2KernelOne 1 1)
              [[[1, 3]]] [0]
            = GaborFilterCv2.compute filter2dId (GaborFilterCv2.init cv2KernelOne 1 1)
              [[[1, 3]]] [1]
        ∧ LGBPHS.compute kernelOfFreq cellHPair [[[1, 3]]] [0]
            = LGBPHS.compute kernelOfFreq cellHPair [[[1, 3]]] [1]) :=
  ⟨rfl, compute_label_independent kernelOfFreq [1, 3] 1 [1] filter2dId
      cv2KernelOne 1 1 cellHPair [[[1, 3]]] [0] [1] rfl⟩

/-- Claim C9: although `GaborFilterFisher.compute` and
`GaborFilterFisher.extract` each construct a fresh `ChainOperator`, both wrap
the persistent `_gabor` and `_fisher` fields: after a `compute` call the
instance holds the projection fitted on that batch, its Gabor stage is
unchanged, and every subsequent `extract` projects with exactly those fitted
parameters. -/
theorem fisher_state_retained {P : Type} (fit : List Mat → List Nat → P)
    (proj : P → Mat → Mat) (g : GaborFilterFisher P) (X : List Mat)
    (y : List Nat) (x : Mat) :
    (GaborFilterFisher.compute fit proj g X y).1.fisher
        = some (fit (X.map (fun im => g.gabor.convolve_to_col im)) y)
    ∧ (GaborFilterFisher.compute fit proj g X y).1.gabor = g.gabor
    ∧ GaborFilterFisher.extract fit proj
          (GaborFilterFisher.compute fit proj g X y).1 x
        = Except.ok (proj (fit (X.map (fun im => g.gabor.convolve_to_col im)) y)
            (g.gabor.convolve_to_col x)) :=
  ⟨rfl, rfl, rfl⟩

end

end FaceReader
